import Mathlib

/-!
Verification development for the infomaniak_mcp repository.

The development shallowly embeds the TypeScript sources:
  * `src/schemas.ts`      — zod validation schemas and the `validate` helper;
  * `src/infomaniak-client.ts` — the `InfomaniakClient` request builder and
    response normalisation;
  * `src/index.ts` / the shared server factory — the tool dispatch switch;
  * the Streamable HTTP transport — session registry handlers.

JSON values are modelled by the inductive `Json` below.  JSON numbers are
modelled as `Int`: every numeric input appearing in the verified claims is an
integer, and all range checks coincide on integers with the JavaScript double
semantics.  The JavaScript `undefined` value is modelled as `Option.none`
wherever a value may be absent.
-/

namespace Imcp

/-- A JSON value (numbers restricted to integers, see the header note). -/
inductive Json where
  | null : Json
  | bool (b : Bool) : Json
  | num (n : Int) : Json
  | str (s : String) : Json
  | arr (elems : List Json) : Json
  | obj (fields : List (String × Json)) : Json
deriving Repr

/-- The result of JavaScript `typeof`-style classification, as zod names it
in its `invalid_type` messages. -/
def Json.typeName : Json → String
  | .null => "null"
  | .bool _ => "boolean"
  | .num _ => "number"
  | .str _ => "string"
  | .arr _ => "array"
  | .obj _ => "object"

/-- Property lookup on a JSON object field list (JavaScript objects have
unique keys, so first-match lookup agrees with object semantics).  `none`
models `undefined`. -/
def jsLookup (fields : List (String × Json)) (k : String) : Option Json :=
  (fields.find? (fun p => p.1 == k)).map (·.2)

/-- JavaScript property access `v[k]`: defined (non-`undefined`) only on
objects.  Access on `null` is handled separately by callers because it
throws in JavaScript. -/
def Json.getProp : Json → String → Option Json
  | .obj fields, k => jsLookup fields k
  | _, _ => none

/-- JavaScript truthiness of a JSON value. -/
def Json.truthy : Json → Bool
  | .null => false
  | .bool b => b
  | .num n => n != 0
  | .str s => s != ""
  | .arr _ => true
  | .obj _ => true

/-- Hex digit (uppercase), for percent- and unicode-escapes. -/
def hexDigit (n : Nat) : Char :=
  if n < 10 then Char.ofNat (48 + n) else Char.ofNat (55 + n)

/-- Two-digit uppercase hex of a byte. -/
def hexByte (n : Nat) : String :=
  String.mk [hexDigit (n / 16 % 16), hexDigit (n % 16)]

/-- Four-digit hex, for JSON `\uXXXX` escapes of control characters. -/
def hexWord (n : Nat) : String :=
  String.mk [hexDigit (n / 4096 % 16), hexDigit (n / 256 % 16),
    hexDigit (n / 16 % 16), hexDigit (n % 16)]

/-- How `JSON.stringify` escapes one character inside a string literal. -/
def escapeJsonChar (c : Char) : String :=
  if c = Char.ofNat 34 then "\\\""
  else if c = Char.ofNat 92 then "\\\\"
  else if c = Char.ofNat 8 then "\\b"
  else if c = Char.ofNat 9 then "\\t"
  else if c = Char.ofNat 10 then "\\n"
  else if c = Char.ofNat 12 then "\\f"
  else if c = Char.ofNat 13 then "\\r"
  else if c.val < 32 then "\\u" ++ hexWord c.toNat
  else String.singleton c

/-- `JSON.stringify` rendering of a string literal. -/
def quoteJson (s : String) : String :=
  "\"" ++ String.join (s.toList.map escapeJsonChar) ++ "\""

/-- JavaScript integer-to-string (agrees with `toString` on `Int`). -/
def jsNumToString (n : Int) : String := toString n

/-- `Array.prototype.join` with an arbitrary separator. -/
def joinStr (sep : String) : List String → String
  | [] => ""
  | [x] => x
  | x :: rest => x ++ sep ++ joinStr sep rest

/-- `Array.prototype.join` with separator `","` used by the serializer. -/
def joinComma (parts : List String) : String := joinStr "," parts

mutual

/-- Compact `JSON.stringify` of a JSON value (no spacing argument). -/
def Json.serialize : Json → String
  | .null => "null"
  | .bool true => "true"
  | .bool false => "false"
  | .num n => jsNumToString n
  | .str s => quoteJson s
  | .arr elems => "[" ++ joinComma (Json.serializeList elems) ++ "]"
  | .obj fields => "\x7b" ++ joinComma (Json.serializeFields fields) ++ "\x7d"

def Json.serializeList : List Json → List String
  | [] => []
  | v :: rest => Json.serialize v :: Json.serializeList rest

def Json.serializeFields : List (String × Json) → List String
  | [] => []
  | (k, v) :: rest => (quoteJson k ++ ":" ++ Json.serialize v) :: Json.serializeFields rest

end

/-- A JavaScript object literal whose property values may be `undefined`
(`none`).  `JSON.stringify` omits such properties. -/
abbrev JsObj := List (String × Option Json)

/-- The JSON value `JSON.stringify` actually serialises for an object
literal: properties holding `undefined` are omitted. -/
def JsObj.toJson (o : JsObj) : Json :=
  Json.obj (o.filterMap fun p => p.2.map (fun v => (p.1, v)))

/-- The serialised request body for an object literal. -/
def JsObj.stringify (o : JsObj) : String := (JsObj.toJson o).serialize

/-! ## The zod validation layer (src/schemas.ts)

Only the zod combinators actually used by `src/schemas.ts` are modelled:
`z.object`, `z.number` with `positive`/`min`/`max`, `z.string` with
`min`/`email`/`startsWith`, `z.enum`, `z.record`, `z.union` of primitives
and `.optional()`.  Issue messages reproduce zod v3 defaults. -/

/-- One zod issue: a field path and a message (only these two parts are
consumed by the `validate` helper). -/
structure ZodIssue where
  path : List String
  message : String
deriving Repr, DecidableEq

/-- A numeric check chained on `z.number()`.  `.positive(msg)` is `gt 0`. -/
inductive NumCheck where
  | gt (bound : Int) (msg : Option String)
  | min (bound : Int) (msg : Option String)
  | max (bound : Int) (msg : Option String)
deriving Repr

/-- The issue message a numeric check produces on value `n`, if any
(custom message when supplied, zod v3 default otherwise). -/
def NumCheck.issueFor (n : Int) : NumCheck → Option String
  | .gt b msg =>
      if n ≤ b then some (msg.getD ("Number must be greater than " ++ toString b)) else none
  | .min b msg =>
      if n < b then
        some (msg.getD ("Number must be greater than or equal to " ++ toString b))
      else none
  | .max b msg =>
      if n > b then
        some (msg.getD ("Number must be less than or equal to " ++ toString b))
      else none

/-- Characters admitted anywhere in the local part of the zod v3 email
regular expression (`[A-Z0-9_'+\-\.]`, case insensitive). -/
def isEmailLocalChar (c : Char) : Bool :=
  c.isAlphanum || c = Char.ofNat 95 || c = Char.ofNat 39 || c = Char.ofNat 43 ||
    c = Char.ofNat 45 || c = Char.ofNat 46

/-- Characters admitted as the final character of the local part
(`[A-Z0-9_+-]`: no dot, no apostrophe). -/
def isEmailLocalEndChar (c : Char) : Bool :=
  c.isAlphanum || c = Char.ofNat 95 || c = Char.ofNat 43 || c = Char.ofNat 45

/-- Whether a character list contains two consecutive dots (the
`(?!.*\.\.)` lookahead of the zod email regular expression). -/
def hasDoubleDot : List Char → Bool
  | a :: b :: rest => (a = Char.ofNat 46 && b = Char.ofNat 46) || hasDoubleDot (b :: rest)
  | _ => false

/-- One domain label before the top-level domain: `[A-Z0-9][A-Z0-9\-]*`. -/
def isDomainLabel (s : String) : Bool :=
  match s.toList with
  | [] => false
  | c :: rest => c.isAlphanum && rest.all (fun d => d.isAlphanum || d = Char.ofNat 45)

/-- The zod v3 email validation
(`/^(?!\.)(?!.*\.\.)([A-Z0-9_'+\-\.]*)[A-Z0-9_+-]@([A-Z0-9][A-Z0-9\-]*\.)+[A-Z]{2,}$/i`). -/
def zodEmailOk (s : String) : Bool :=
  (match s.toList with
   | [] => false
   | c :: _ => c != Char.ofNat 46) &&
  !hasDoubleDot s.toList &&
  (match s.splitOn "@" with
   | [localPart, domain] =>
       (match localPart.toList.getLast? with
        | none => false
        | some lastC =>
            localPart.toList.all isEmailLocalChar && isEmailLocalEndChar lastC) &&
       (match domain.splitOn "." with
        | [] => false
        | labels =>
            let tld := labels.getLastD ""
            labels.length ≥ 2 &&
            (labels.dropLast.all isDomainLabel) &&
            tld.length ≥ 2 && tld.toList.all Char.isAlpha)
   | _ => false)

/-- A string check chained on `z.string()`. -/
inductive StrCheck where
  | min (len : Nat) (msg : Option String)
  | email (msg : Option String)
  | startsWith (pre : String) (msg : Option String)
deriving Repr

/-- The issue message a string check produces on value `s`, if any. -/
def StrCheck.issueFor (s : String) : StrCheck → Option String
  | .min n msg =>
      if s.length < n then
        some (msg.getD ("String must contain at least " ++ toString n ++ " character(s)"))
      else none
  | .email msg => if zodEmailOk s then none else some (msg.getD "Invalid email")
  | .startsWith p msg =>
      if p.isPrefixOf s then none
      else some (msg.getD ("Invalid input: must start with \"" ++ p ++ "\""))

/-- The value schema of a `z.record(...)` as used in `ApiCallSchema`. -/
inductive RecordValueKind where
  | unknown
  | primitiveUnion
deriving Repr

/-- Membership test for `z.union([z.string(), z.number(), z.boolean()])`. -/
def unionMemberOk : Json → Bool
  | .str _ => true
  | .num _ => true
  | .bool _ => true
  | _ => false

/-- A single quoted value as zod prints it inside enum messages. -/
def quoteSingle (s : String) : String := "\x27" ++ s ++ "\x27"

/-- The `join` of expected enum values in zod messages. -/
def enumExpected (values : List String) : String :=
  joinStr " | " (values.map quoteSingle)

/-- One field rule of a `z.object` shape, as used in `src/schemas.ts`. -/
inductive ZodField where
  | number (requiredError : Option String) (checks : List NumCheck)
  | string (requiredError : Option String) (checks : List StrCheck)
  | enum (values : List String)
  | record (valueKind : RecordValueKind)
  | optional (inner : ZodField)
deriving Repr

/-- Issues for one value of a record field. -/
def recordValueIssues (kind : RecordValueKind) (fieldKey innerKey : String)
    (v : Json) : List ZodIssue :=
  match kind with
  | .unknown => []
  | .primitiveUnion =>
      if unionMemberOk v then [] else [⟨[fieldKey, innerKey], "Invalid input"⟩]

/-- The issues one field rule produces for the value found at key `k`
(`none` meaning the key is absent / the value is `undefined`).  A custom
`required_error` replaces the default `Required` only when the value is
`undefined`; a fatal `invalid_type` suppresses the chained checks, while a
well-typed value collects every failing chained check, as zod does. -/
def ZodField.issues : ZodField → String → Option Json → List ZodIssue
  | .optional inner, k, v =>
      match v with
      | none => []
      | some j => inner.issues k (some j)
  | .number re checks, k, v =>
      match v with
      | none => [⟨[k], re.getD "Required"⟩]
      | some (.num n) => (checks.filterMap (·.issueFor n)).map (⟨[k], ·⟩)
      | some j => [⟨[k], "Expected number, received " ++ j.typeName⟩]
  | .string re checks, k, v =>
      match v with
      | none => [⟨[k], re.getD "Required"⟩]
      | some (.str s) => (checks.filterMap (·.issueFor s)).map (⟨[k], ·⟩)
      | some j => [⟨[k], "Expected string, received " ++ j.typeName⟩]
  | .enum values, k, v =>
      match v with
      | none => [⟨[k], "Required"⟩]
      | some (.str s) =>
          if values.contains s then []
          else [⟨[k], "Invalid enum value. Expected " ++ enumExpected values ++
                  ", received " ++ quoteSingle s⟩]
      | some j =>
          [⟨[k], "Expected " ++ enumExpected values ++ ", received " ++ j.typeName⟩]
  | .record kind, k, v =>
      match v with
      | none => [⟨[k], "Required"⟩]
      | some (.obj fields) =>
          (fields.map (fun p => recordValueIssues kind k p.1 p.2)).flatten
      | some j => [⟨[k], "Expected object, received " ++ j.typeName⟩]

/-- The shape of a `z.object` schema: field rules in declaration order. -/
abbrev ZodObject := List (String × ZodField)

/-- All issues `safeParse` collects for `data` against an object schema:
zod walks the declared fields in declaration order and keeps every issue. -/
def zodObjectIssues (shape : ZodObject) (data : Option Json) : List ZodIssue :=
  match data with
  | none => [⟨[], "Required"⟩]
  | some (.obj fields) => (shape.map fun p => p.2.issues p.1 (jsLookup fields p.1)).flatten
  | some j => [⟨[], "Expected object, received " ++ j.typeName⟩]

/-- The parsed output on success: zod strips keys that are not declared and
keeps declared keys that are present, in declaration order. -/
def zodObjectOutput (shape : ZodObject) (fields : List (String × Json)) : Json :=
  Json.obj (shape.filterMap fun p => (jsLookup fields p.1).map (fun v => (p.1, v)))

/-- `<path joined with .>: <message>` as the `validate` helper formats one
issue. -/
def formatIssue (i : ZodIssue) : String :=
  joinStr "." i.path ++ ": " ++ i.message

/-- The `validate` helper of `src/schemas.ts`: `safeParse`, then either the
typed data or an `Error` whose message joins every issue with `", "` after
the `Validation error: ` prefix.  The thrown message is the `.error` value. -/
def validate (shape : ZodObject) (data : Option Json) : Except String Json :=
  match data, zodObjectIssues shape data with
  | some (Json.obj fields), [] => .ok (zodObjectOutput shape fields)
  | _, issues => .error ("Validation error: " ++ joinStr ", " (issues.map formatIssue))

/-! ## Schema definitions (src/schemas.ts) -/

def AccountIdSchema : ZodObject :=
  [("account_id", .number (some "account_id is required")
      [.gt 0 (some "account_id must be positive")])]

def DomainNameSchema : ZodObject :=
  [("domain", .string (some "domain is required") [.min 1 (some "domain cannot be empty")])]

/-- The value list of `DnsRecordTypeSchema` (`z.enum`). -/
def DnsRecordTypeValues : List String :=
  ["A", "AAAA", "CNAME", "MX", "TXT", "NS", "SRV", "CAA"]

def ListDnsRecordsSchema : ZodObject := DomainNameSchema

def CreateDnsRecordSchema : ZodObject :=
  [("domain", .string none [.min 1 (some "domain is required")]),
   ("source", .string (some "source is required") []),
   ("type", .enum DnsRecordTypeValues),
   ("target", .string (some "target is required") [.min 1 (some "target cannot be empty")]),
   ("ttl", .optional (.number none [.min 60 none, .max 86400 none])),
   ("priority", .optional (.number none [.min 0 none, .max 65535 none]))]

def UpdateDnsRecordSchema : ZodObject :=
  [("domain", .string none [.min 1 (some "domain is required")]),
   ("record_id", .number (some "record_id is required") [.gt 0 none]),
   ("source", .optional (.string none [])),
   ("type", .optional (.enum DnsRecordTypeValues)),
   ("target", .optional (.string none [.min 1 none])),
   ("ttl", .optional (.number none [.min 60 none, .max 86400 none])),
   ("priority", .optional (.number none [.min 0 none, .max 65535 none]))]

def DeleteDnsRecordSchema : ZodObject :=
  [("domain", .string none [.min 1 (some "domain is required")]),
   ("record_id", .number (some "record_id is required") [.gt 0 none])]

def GetDomainSchema : ZodObject :=
  [("account_id", .number none [.gt 0 none]),
   ("domain", .string none [.min 1 none])]

def MailIdSchema : ZodObject :=
  [("mail_id", .number (some "mail_id is required") [.gt 0 none])]

def MailboxIdSchema : ZodObject :=
  [("mail_id", .number none [.gt 0 none]),
   ("mailbox_id", .number (some "mailbox_id is required") [.gt 0 none])]

def CreateMailboxSchema : ZodObject :=
  [("mail_id", .number none [.gt 0 none]),
   ("mailbox_name", .string (some "mailbox_name is required")
      [.min 1 (some "mailbox_name cannot be empty")]),
   ("password", .string (some "password is required")
      [.min 8 (some "password must be at least 8 characters")]),
   ("max_size", .optional (.number none [.gt 0 none]))]

def UpdateMailboxSchema : ZodObject :=
  [("mail_id", .number none [.gt 0 none]),
   ("mailbox_id", .number none [.gt 0 none]),
   ("password", .optional (.string none [.min 8 none])),
   ("max_size", .optional (.number none [.gt 0 none]))]

def DeleteMailboxSchema : ZodObject := MailboxIdSchema

def MailboxAliasSchema : ZodObject :=
  [("mail_id", .number none [.gt 0 none]),
   ("mailbox_id", .number none [.gt 0 none]),
   ("alias", .string (some "alias is required") [.email (some "alias must be a valid email")])]

def HostingIdSchema : ZodObject :=
  [("hosting_id", .number (some "hosting_id is required") [.gt 0 none])]

def SiteIdSchema : ZodObject :=
  [("hosting_id", .number none [.gt 0 none]),
   ("site_id", .number (some "site_id is required") [.gt 0 none])]

def CreateSiteSchema : ZodObject :=
  [("hosting_id", .number none [.gt 0 none]),
   ("fqdn", .string (some "fqdn is required") [.min 1 (some "fqdn cannot be empty")]),
   ("path", .optional (.string none [])),
   ("php_version", .optional (.string none []))]

def UpdateSiteSchema : ZodObject :=
  [("hosting_id", .number none [.gt 0 none]),
   ("site_id", .number none [.gt 0 none]),
   ("path", .optional (.string none [])),
   ("php_version", .optional (.string none []))]

def DeleteSiteSchema : ZodObject := SiteIdSchema

def DatabaseIdSchema : ZodObject :=
  [("hosting_id", .number none [.gt 0 none]),
   ("database_id", .number (some "database_id is required") [.gt 0 none])]

def CreateDatabaseSchema : ZodObject :=
  [("hosting_id", .number none [.gt 0 none]),
   ("name", .string (some "name is required") [.min 1 (some "database name cannot be empty")]),
   ("charset", .optional (.string none []))]

def DeleteDatabaseSchema : ZodObject := DatabaseIdSchema

def DriveIdSchema : ZodObject :=
  [("drive_id", .number (some "drive_id is required") [.gt 0 none])]

def BackupIdSchema : ZodObject :=
  [("backup_id", .number (some "backup_id is required") [.gt 0 none])]

def VpsIdSchema : ZodObject :=
  [("vps_id", .number (some "vps_id is required") [.gt 0 none])]

def ServerIdSchema : ZodObject :=
  [("server_id", .number (some "server_id is required") [.gt 0 none])]

def CertificateIdSchema : ZodObject :=
  [("certificate_id", .number (some "certificate_id is required") [.gt 0 none])]

def InvoiceIdSchema : ZodObject :=
  [("account_id", .number none [.gt 0 none]),
   ("invoice_id", .number (some "invoice_id is required") [.gt 0 none])]

/-- The value list of the `method` enum in `ApiCallSchema`. -/
def HttpMethodValues : List String := ["GET", "POST", "PUT", "PATCH", "DELETE"]

def ApiCallSchema : ZodObject :=
  [("method", .enum HttpMethodValues),
   ("endpoint", .string (some "endpoint is required")
      [.startsWith "/" (some "endpoint must start with /")]),
   ("body", .optional (.record .unknown)),
   ("query_params", .optional (.record .primitiveUnion))]

/-! ## The Infomaniak API client (src/infomaniak-client.ts)

The request side of `InfomaniakClient.request` is a pure function from its
arguments to the single `fetch` call it issues, modelled as a `FetchCall`.
The response side is a pure function of the HTTP status, the response body
text and the result of `JSON.parse` on that text (the parse itself being a
library primitive, it enters the model as an `Option Json`: `none` when
parsing throws). -/

/-- The UTF-8 bytes of a scalar value, for percent-encoding. -/
def utf8Bytes (n : Nat) : List Nat :=
  if n < 128 then [n]
  else if n < 2048 then [192 + n / 64, 128 + n % 64]
  else if n < 65536 then [224 + n / 4096, 128 + n / 64 % 64, 128 + n % 64]
  else [240 + n / 262144, 128 + n / 4096 % 64, 128 + n / 64 % 64, 128 + n % 64]

/-- Percent-encode one character. -/
def percentEncodeChar (c : Char) : String :=
  String.join ((utf8Bytes c.toNat).map (fun b => "%" ++ hexByte b))

/-- Characters `encodeURIComponent` leaves unencoded:
alphanumeric and `- _ . ! ~ * ( )` and the apostrophe. -/
def isUriComponentSafe (c : Char) : Bool :=
  c.isAlphanum || c = Char.ofNat 45 || c = Char.ofNat 95 || c = Char.ofNat 46 ||
    c = Char.ofNat 33 || c = Char.ofNat 126 || c = Char.ofNat 42 ||
    c = Char.ofNat 39 || c = Char.ofNat 40 || c = Char.ofNat 41

/-- JavaScript `encodeURIComponent`. -/
def encodeURIComponent (s : String) : String :=
  String.join (s.toList.map fun c =>
    if isUriComponentSafe c then String.singleton c else percentEncodeChar c)

/-- Characters the `application/x-www-form-urlencoded` serialiser used by
`URLSearchParams.toString` leaves unencoded: alphanumeric and `* - . _`. -/
def isFormSafe (c : Char) : Bool :=
  c.isAlphanum || c = Char.ofNat 42 || c = Char.ofNat 45 ||
    c = Char.ofNat 46 || c = Char.ofNat 95

/-- `URLSearchParams` serialisation of one token (space becomes `+`). -/
def formEncode (s : String) : String :=
  String.join (s.toList.map fun c =>
    if c = Char.ofNat 32 then "+"
    else if isFormSafe c then String.singleton c
    else percentEncodeChar c)

/-- A query-parameter value: `string | number | boolean` after validation
(`undefined` entries are modelled by the surrounding `Option`). -/
inductive QueryValue where
  | s (v : String)
  | n (v : Int)
  | b (v : Bool)
deriving Repr

/-- JavaScript `String(value)` on a query-parameter value. -/
def QueryValue.toStr : QueryValue → String
  | .s v => v
  | .n v => jsNumToString v
  | .b true => "true"
  | .b false => "false"

/-- The `queryParams` argument of `request`:
`Record<string, string | number | boolean | undefined>`. -/
abbrev QueryParams := List (String × Option QueryValue)

/-- `URLSearchParams.toString()` after appending every entry whose value is
not `undefined`, in iteration order. -/
def queryParamsToString (qp : QueryParams) : String :=
  joinStr "&" (qp.filterMap fun p =>
    p.2.map fun v => formEncode p.1 ++ "=" ++ formEncode v.toStr)

/-- The configuration given to the `InfomaniakClient` constructor. -/
structure InfomaniakConfig where
  token : String
  baseUrl : Option String := none

/-- The constructed client state: `baseUrl` falls back to the fixed
endpoint when the configured value is absent or falsy (empty). -/
structure InfomaniakClient where
  token : String
  baseUrl : String

def InfomaniakClient.mk' (config : InfomaniakConfig) : InfomaniakClient :=
  { token := config.token,
    baseUrl :=
      match config.baseUrl with
      | some s => if s != "" then s else "https://api.infomaniak.com"
      | none => "https://api.infomaniak.com" }

/-- The single `fetch` invocation `request` performs: its URL, HTTP method,
headers, and serialised body (`none` when no `body` option is attached). -/
structure FetchCall where
  url : String
  method : String
  headers : List (String × String)
  body : Option String
deriving Repr

/-- The fixed headers of every request. -/
def requestHeaders (c : InfomaniakClient) : List (String × String) :=
  [("Authorization", "Bearer " ++ c.token),
   ("Content-Type", "application/json"),
   ("Accept", "application/json")]

/-- The request-building half of `InfomaniakClient.request`: the URL with
optional query string, and a JSON body attached only for a truthy `body`
argument combined with method `POST`, `PUT` or `PATCH`. -/
def InfomaniakClient.request (c : InfomaniakClient) (method path : String)
    (body : Option JsObj := none) (queryParams : Option QueryParams := none) :
    FetchCall :=
  let url :=
    match queryParams with
    | none => c.baseUrl ++ path
    | some qp =>
        let qs := queryParamsToString qp
        if qs != "" then c.baseUrl ++ path ++ "?" ++ qs else c.baseUrl ++ path
  { url := url,
    method := method,
    headers := requestHeaders c,
    body :=
      match body with
      | some b =>
          if method == "POST" || method == "PUT" || method == "PATCH" then
            some b.stringify
          else none
      | none => none }

/-- Template-literal rendering of the JavaScript value interpolated into
the thrown message. -/
def jsDisplay : Json → String
  | Json.str s => s
  | Json.num n => jsNumToString n
  | Json.bool true => "true"
  | Json.bool false => "false"
  | Json.null => "null"
  | Json.arr _ => ""
  | Json.obj _ => "[object Object]"

/-- `errorJson.message || errorText`, the tail of the fallback chain. -/
def errorMessageFallback (errorText : String) (j : Json) : String :=
  match j.getProp "message" with
  | some m => if m.truthy then jsDisplay m else errorText
  | none => errorText

/-- `errorJson.error?.description` as an optional value: `undefined` when
the `error` property is absent or `null`. -/
def errorDescription (j : Json) : Option Json :=
  match j.getProp "error" with
  | none => none
  | some Json.null => none
  | some e => e.getProp "description"

/-- The `errorMessage` computed inside the non-2xx branch of `request`:
`errorJson.error?.description || errorJson.message || errorText` inside a
`try` whose `catch` falls back to the raw text.  `parsed` is the result of
`JSON.parse(errorText)` (`none` when the parse throws).  Property access on
a parsed `null` throws a `TypeError` caught by the same `catch`. -/
def extractErrorMessage (errorText : String) (parsed : Option Json) : String :=
  match parsed with
  | none => errorText
  | some Json.null => errorText
  | some j =>
      match errorDescription j with
      | some d =>
          if d.truthy then jsDisplay d
          else errorMessageFallback errorText j
      | none => errorMessageFallback errorText j

/-- The observable outcome of the response half of `request`. -/
inductive RequestOutcome where
  | success (data : Option Json)
  | apiError (message : String)
deriving Repr

/-- The exact failure message thrown for a non-2xx response. -/
def apiErrorMessage (status : Nat) (errorText : String) (parsed : Option Json) :
    String :=
  "Infomaniak API Error (" ++ toString status ++ "): " ++
    extractErrorMessage errorText parsed

/-- The response half of `InfomaniakClient.request`: `response.ok` is
`200 ≤ status < 300`; a non-ok response throws the `Infomaniak API Error`
message; an ok response returns `response.json()` (the parse result). -/
def requestOutcome (status : Nat) (bodyText : String) (parsed : Option Json) :
    RequestOutcome :=
  if 200 ≤ status && status < 300 then .success parsed
  else .apiError (apiErrorMessage status bodyText parsed)

/-! Named client methods: each issues exactly one request (the `FetchCall`
it returns).  Paths are built exactly as the template literals in
`src/infomaniak-client.ts`. -/

namespace InfomaniakClient

def getProfile (c : InfomaniakClient) : FetchCall :=
  c.request "GET" "/1/profile"

def ping (c : InfomaniakClient) : FetchCall :=
  c.request "GET" "/1/ping"

def getAccounts (c : InfomaniakClient) : FetchCall :=
  c.request "GET" "/1/account"

def getAccount (c : InfomaniakClient) (accountId : Int) : FetchCall :=
  c.request "GET" ("/1/account/" ++ jsNumToString accountId)

def getAccountProducts (c : InfomaniakClient) (accountId : Int) : FetchCall :=
  c.request "GET" ("/1/account/" ++ jsNumToString accountId ++ "/product")

def getDomains (c : InfomaniakClient) (accountId : Int) : FetchCall :=
  c.request "GET" ("/1/domain/account/" ++ jsNumToString accountId)

def getDomain (c : InfomaniakClient) (accountId : Int) (domain : String) : FetchCall :=
  c.request "GET" ("/1/domain/account/" ++ jsNumToString accountId ++ "/domain/" ++ domain)

def getDnsRecords (c : InfomaniakClient) (domain : String) : FetchCall :=
  c.request "GET" ("/1/domain/" ++ domain ++ "/dns/record")

/-- The `record` argument of `createDnsRecord` (optional fields may be
`undefined`). -/
structure DnsRecordInput where
  source : String
  type : String
  target : String
  ttl : Option Int
  priority : Option Int

/-- The object literal `createDnsRecord` passes as the request body. -/
def DnsRecordInput.toJsObj (r : DnsRecordInput) : JsObj :=
  [("source", some (Json.str r.source)),
   ("type", some (Json.str r.type)),
   ("target", some (Json.str r.target)),
   ("ttl", r.ttl.map Json.num),
   ("priority", r.priority.map Json.num)]

def createDnsRecord (c : InfomaniakClient) (domain : String)
    (record : DnsRecordInput) : FetchCall :=
  c.request "POST" ("/1/domain/" ++ domain ++ "/dns/record") (some record.toJsObj)

/-- The `record` argument of `updateDnsRecord` (every field optional). -/
structure DnsRecordUpdate where
  source : Option String
  type : Option String
  target : Option String
  ttl : Option Int
  priority : Option Int

def DnsRecordUpdate.toJsObj (r : DnsRecordUpdate) : JsObj :=
  [("source", r.source.map Json.str),
   ("type", r.type.map Json.str),
   ("target", r.target.map Json.str),
   ("ttl", r.ttl.map Json.num),
   ("priority", r.priority.map Json.num)]

def updateDnsRecord (c : InfomaniakClient) (domain : String) (recordId : Int)
    (record : DnsRecordUpdate) : FetchCall :=
  c.request "PUT" ("/1/domain/" ++ domain ++ "/dns/record/" ++ jsNumToString recordId)
    (some record.toJsObj)

def deleteDnsRecord (c : InfomaniakClient) (domain : String) (recordId : Int) : FetchCall :=
  c.request "DELETE" ("/1/domain/" ++ domain ++ "/dns/record/" ++ jsNumToString recordId)

def getMailServices (c : InfomaniakClient) (accountId : Int) : FetchCall :=
  c.request "GET" "/1/mail" none (some [("account_id", some (.n accountId))])

def getMailService (c : InfomaniakClient) (mailId : Int) : FetchCall :=
  c.request "GET" ("/1/mail/" ++ jsNumToString mailId)

def getMailboxes (c : InfomaniakClient) (mailId : Int) : FetchCall :=
  c.request "GET" ("/1/mail/" ++ jsNumToString mailId ++ "/mailbox")

def getMailbox (c : InfomaniakClient) (mailId mailboxId : Int) : FetchCall :=
  c.request "GET" ("/1/mail/" ++ jsNumToString mailId ++ "/mailbox/" ++ jsNumToString mailboxId)

/-- The `mailbox` argument of `createMailbox`. -/
structure MailboxInput where
  mailbox_name : String
  password : String
  max_size : Option Int

def MailboxInput.toJsObj (m : MailboxInput) : JsObj :=
  [("mailbox_name", some (Json.str m.mailbox_name)),
   ("password", some (Json.str m.password)),
   ("max_size", m.max_size.map Json.num)]

def createMailbox (c : InfomaniakClient) (mailId : Int) (mailbox : MailboxInput) : FetchCall :=
  c.request "POST" ("/1/mail/" ++ jsNumToString mailId ++ "/mailbox") (some mailbox.toJsObj)

/-- The `mailbox` argument of `updateMailbox`. -/
structure MailboxUpdate where
  password : Option String
  max_size : Option Int

def MailboxUpdate.toJsObj (m : MailboxUpdate) : JsObj :=
  [("password", m.password.map Json.str),
   ("max_size", m.max_size.map Json.num)]

def updateMailbox (c : InfomaniakClient) (mailId mailboxId : Int)
    (mailbox : MailboxUpdate) : FetchCall :=
  c.request "PUT" ("/1/mail/" ++ jsNumToString mailId ++ "/mailbox/" ++ jsNumToString mailboxId)
    (some mailbox.toJsObj)

def deleteMailbox (c : InfomaniakClient) (mailId mailboxId : Int) : FetchCall :=
  c.request "DELETE"
    ("/1/mail/" ++ jsNumToString mailId ++ "/mailbox/" ++ jsNumToString mailboxId)

def addMailboxAlias (c : InfomaniakClient) (mailId mailboxId : Int) (aliasAddr : String) : FetchCall :=
  c.request "POST"
    ("/1/mail/" ++ jsNumToString mailId ++ "/mailbox/" ++ jsNumToString mailboxId ++ "/alias")
    (some [("alias", some (Json.str aliasAddr))])

def deleteMailboxAlias (c : InfomaniakClient) (mailId mailboxId : Int)
    (aliasAddr : String) : FetchCall :=
  c.request "DELETE"
    ("/1/mail/" ++ jsNumToString mailId ++ "/mailbox/" ++ jsNumToString mailboxId ++
      "/alias/" ++ encodeURIComponent aliasAddr)

def getWebHostings (c : InfomaniakClient) (accountId : Int) : FetchCall :=
  c.request "GET" "/1/web" none (some [("account_id", some (.n accountId))])

def getWebHosting (c : InfomaniakClient) (hostingId : Int) : FetchCall :=
  c.request "GET" ("/1/web/" ++ jsNumToString hostingId)

def getSites (c : InfomaniakClient) (hostingId : Int) : FetchCall :=
  c.request "GET" ("/1/web/" ++ jsNumToString hostingId ++ "/site")

def getSite (c : InfomaniakClient) (hostingId siteId : Int) : FetchCall :=
  c.request "GET" ("/1/web/" ++ jsNumToString hostingId ++ "/site/" ++ jsNumToString siteId)

/-- The `site` argument of `createSite`. -/
structure SiteInput where
  fqdn : String
  path : Option String
  php_version : Option String

def SiteInput.toJsObj (s : SiteInput) : JsObj :=
  [("fqdn", some (Json.str s.fqdn)),
   ("path", s.path.map Json.str),
   ("php_version", s.php_version.map Json.str)]

def createSite (c : InfomaniakClient) (hostingId : Int) (site : SiteInput) : FetchCall :=
  c.request "POST" ("/1/web/" ++ jsNumToString hostingId ++ "/site") (some site.toJsObj)

/-- The `site` argument of `updateSite`. -/
structure SiteUpdate where
  path : Option String
  php_version : Option String

def SiteUpdate.toJsObj (s : SiteUpdate) : JsObj :=
  [("path", s.path.map Json.str),
   ("php_version", s.php_version.map Json.str)]

def updateSite (c : InfomaniakClient) (hostingId siteId : Int) (site : SiteUpdate) : FetchCall :=
  c.request "PUT" ("/1/web/" ++ jsNumToString hostingId ++ "/site/" ++ jsNumToString siteId)
    (some site.toJsObj)

def deleteSite (c : InfomaniakClient) (hostingId siteId : Int) : FetchCall :=
  c.request "DELETE" ("/1/web/" ++ jsNumToString hostingId ++ "/site/" ++ jsNumToString siteId)

def getDatabases (c : InfomaniakClient) (hostingId : Int) : FetchCall :=
  c.request "GET" ("/1/web/" ++ jsNumToString hostingId ++ "/database")

def getDatabase (c : InfomaniakClient) (hostingId dbId : Int) : FetchCall :=
  c.request "GET" ("/1/web/" ++ jsNumToString hostingId ++ "/database/" ++ jsNumToString dbId)

/-- The `database` argument of `createDatabase`. -/
structure DatabaseInput where
  name : String
  charset : Option String

def DatabaseInput.toJsObj (d : DatabaseInput) : JsObj :=
  [("name", some (Json.str d.name)),
   ("charset", d.charset.map Json.str)]

def createDatabase (c : InfomaniakClient) (hostingId : Int) (database : DatabaseInput) : FetchCall :=
  c.request "POST" ("/1/web/" ++ jsNumToString hostingId ++ "/database")
    (some database.toJsObj)

def deleteDatabase (c : InfomaniakClient) (hostingId dbId : Int) : FetchCall :=
  c.request "DELETE" ("/1/web/" ++ jsNumToString hostingId ++ "/database/" ++ jsNumToString dbId)

def getKDrives (c : InfomaniakClient) (accountId : Int) : FetchCall :=
  c.request "GET" "/2/drive" none (some [("account_id", some (.n accountId))])

def getKDrive (c : InfomaniakClient) (driveId : Int) : FetchCall :=
  c.request "GET" ("/2/drive/" ++ jsNumToString driveId)

def getSwissBackups (c : InfomaniakClient) (accountId : Int) : FetchCall :=
  c.request "GET" "/1/swiss_backup" none (some [("account_id", some (.n accountId))])

def getSwissBackup (c : InfomaniakClient) (backupId : Int) : FetchCall :=
  c.request "GET" ("/1/swiss_backup/" ++ jsNumToString backupId)

def getSwissBackupSlots (c : InfomaniakClient) (backupId : Int) : FetchCall :=
  c.request "GET" ("/1/swiss_backup/" ++ jsNumToString backupId ++ "/slot")

def getVpsList (c : InfomaniakClient) : FetchCall :=
  c.request "GET" "/1/vps"

def getVps (c : InfomaniakClient) (vpsId : Int) : FetchCall :=
  c.request "GET" ("/1/vps/" ++ jsNumToString vpsId)

def rebootVps (c : InfomaniakClient) (vpsId : Int) : FetchCall :=
  c.request "POST" ("/1/vps/" ++ jsNumToString vpsId ++ "/reboot")

def shutdownVps (c : InfomaniakClient) (vpsId : Int) : FetchCall :=
  c.request "POST" ("/1/vps/" ++ jsNumToString vpsId ++ "/shutdown")

def bootVps (c : InfomaniakClient) (vpsId : Int) : FetchCall :=
  c.request "POST" ("/1/vps/" ++ jsNumToString vpsId ++ "/boot")

def getDedicatedServers (c : InfomaniakClient) : FetchCall :=
  c.request "GET" "/1/dedicated"

def getDedicatedServer (c : InfomaniakClient) (serverId : Int) : FetchCall :=
  c.request "GET" ("/1/dedicated/" ++ jsNumToString serverId)

def rebootDedicatedServer (c : InfomaniakClient) (serverId : Int) : FetchCall :=
  c.request "POST" ("/1/dedicated/" ++ jsNumToString serverId ++ "/reboot")

def getCertificates (c : InfomaniakClient) (accountId : Int) : FetchCall :=
  c.request "GET" "/1/certificate" none (some [("account_id", some (.n accountId))])

def getCertificate (c : InfomaniakClient) (certId : Int) : FetchCall :=
  c.request "GET" ("/1/certificate/" ++ jsNumToString certId)

def getInvoices (c : InfomaniakClient) (accountId : Int) : FetchCall :=
  c.request "GET" ("/1/invoicing/" ++ jsNumToString accountId ++ "/invoice/list")

def getInvoice (c : InfomaniakClient) (accountId invoiceId : Int) : FetchCall :=
  c.request "GET" ("/1/invoicing/" ++ jsNumToString accountId ++ "/invoice/" ++
    jsNumToString invoiceId)

/-- The generic passthrough method: forwards every argument to `request`
unchanged (the method name comes from the validated HTTP-verb enum). -/
def call (c : InfomaniakClient) (method : String) (endpoint : String)
    (body : Option JsObj := none) (queryParams : Option QueryParams := none) : FetchCall :=
  c.request method endpoint body queryParams

end InfomaniakClient

/-! ## The tool dispatch switch (src/index.ts, CallToolRequestSchema handler)

Each `case` validates the raw arguments with its schema and invokes exactly
one client method on the validated fields.  The TypeScript code reads the
validated fields through static types; the embedding reads them through the
typed accessors below, whose fallback branches are unreachable on data that
passed validation. -/

/-- Typed access to a validated string field. -/
def Json.getStr (j : Json) (k : String) : String :=
  match j.getProp k with
  | some (.str s) => s
  | _ => ""

/-- Typed access to a validated number field. -/
def Json.getInt (j : Json) (k : String) : Int :=
  match j.getProp k with
  | some (.num n) => n
  | _ => 0

/-- Typed access to an optional string field (`undefined` when absent). -/
def Json.getStrOpt (j : Json) (k : String) : Option String :=
  match j.getProp k with
  | some (.str s) => some s
  | _ => none

/-- Typed access to an optional number field (`undefined` when absent). -/
def Json.getIntOpt (j : Json) (k : String) : Option Int :=
  match j.getProp k with
  | some (.num n) => some n
  | _ => none

/-- Typed access to an optional record field (`undefined` when absent). -/
def Json.getObjOpt (j : Json) (k : String) : Option (List (String × Json)) :=
  match j.getProp k with
  | some (.obj fields) => some fields
  | _ => none

/-- A validated record value coerced to its primitive-union type. -/
def jsonToQueryValue : Json → QueryValue
  | .str s => .s s
  | .num n => .n n
  | .bool b => .b b
  | _ => .s ""

/-- The validated `body` record as the object the client serialises. -/
def recordToJsObj (fields : List (String × Json)) : JsObj :=
  fields.map fun p => (p.1, some p.2)

/-- The validated `query_params` record as the client query list. -/
def recordToQueryParams (fields : List (String × Json)) : QueryParams :=
  fields.map fun p => (p.1, some (jsonToQueryValue p.2))

/-- The `case` labels of the dispatch switch, in source order. -/
def knownToolNames : List String :=
  ["infomaniak_ping", "infomaniak_get_profile", "infomaniak_list_accounts",
   "infomaniak_get_account", "infomaniak_list_products", "infomaniak_list_domains",
   "infomaniak_get_domain", "infomaniak_list_dns_records", "infomaniak_create_dns_record",
   "infomaniak_update_dns_record", "infomaniak_delete_dns_record",
   "infomaniak_list_mail_services", "infomaniak_get_mail_service",
   "infomaniak_list_mailboxes", "infomaniak_get_mailbox", "infomaniak_create_mailbox",
   "infomaniak_update_mailbox", "infomaniak_delete_mailbox",
   "infomaniak_add_mailbox_alias", "infomaniak_delete_mailbox_alias",
   "infomaniak_list_web_hostings", "infomaniak_get_web_hosting",
   "infomaniak_list_sites", "infomaniak_get_site", "infomaniak_create_site",
   "infomaniak_update_site", "infomaniak_delete_site", "infomaniak_list_databases",
   "infomaniak_get_database", "infomaniak_create_database", "infomaniak_delete_database",
   "infomaniak_list_kdrives", "infomaniak_get_kdrive", "infomaniak_list_swiss_backups",
   "infomaniak_get_swiss_backup", "infomaniak_list_swiss_backup_slots",
   "infomaniak_list_vps", "infomaniak_get_vps", "infomaniak_reboot_vps",
   "infomaniak_shutdown_vps", "infomaniak_boot_vps", "infomaniak_list_dedicated_servers",
   "infomaniak_get_dedicated_server", "infomaniak_reboot_dedicated_server",
   "infomaniak_list_certificates", "infomaniak_get_certificate",
   "infomaniak_list_invoices", "infomaniak_get_invoice", "infomaniak_api_call"]

/-- The body of the `try` block of the tool-call handler: validates, then
produces the single client call to await, or throws (`Except.error`) the
validation-failure or unknown-tool message. -/
def dispatchCore (c : InfomaniakClient) (name : String) (args : Option Json) :
    Except String FetchCall :=
  match name with
  | "infomaniak_ping" => .ok c.ping
  | "infomaniak_get_profile" => .ok c.getProfile
  | "infomaniak_list_accounts" => .ok c.getAccounts
  | "infomaniak_get_account" => do
      let v ← validate AccountIdSchema args
      .ok (c.getAccount (v.getInt "account_id"))
  | "infomaniak_list_products" => do
      let v ← validate AccountIdSchema args
      .ok (c.getAccountProducts (v.getInt "account_id"))
  | "infomaniak_list_domains" => do
      let v ← validate AccountIdSchema args
      .ok (c.getDomains (v.getInt "account_id"))
  | "infomaniak_get_domain" => do
      let v ← validate GetDomainSchema args
      .ok (c.getDomain (v.getInt "account_id") (v.getStr "domain"))
  | "infomaniak_list_dns_records" => do
      let v ← validate ListDnsRecordsSchema args
      .ok (c.getDnsRecords (v.getStr "domain"))
  | "infomaniak_create_dns_record" => do
      let v ← validate CreateDnsRecordSchema args
      .ok (c.createDnsRecord (v.getStr "domain")
        { source := v.getStr "source", type := v.getStr "type",
          target := v.getStr "target", ttl := v.getIntOpt "ttl",
          priority := v.getIntOpt "priority" })
  | "infomaniak_update_dns_record" => do
      let v ← validate UpdateDnsRecordSchema args
      .ok (c.updateDnsRecord (v.getStr "domain") (v.getInt "record_id")
        { source := v.getStrOpt "source", type := v.getStrOpt "type",
          target := v.getStrOpt "target", ttl := v.getIntOpt "ttl",
          priority := v.getIntOpt "priority" })
  | "infomaniak_delete_dns_record" => do
      let v ← validate DeleteDnsRecordSchema args
      .ok (c.deleteDnsRecord (v.getStr "domain") (v.getInt "record_id"))
  | "infomaniak_list_mail_services" => do
      let v ← validate AccountIdSchema args
      .ok (c.getMailServices (v.getInt "account_id"))
  | "infomaniak_get_mail_service" => do
      let v ← validate MailIdSchema args
      .ok (c.getMailService (v.getInt "mail_id"))
  | "infomaniak_list_mailboxes" => do
      let v ← validate MailIdSchema args
      .ok (c.getMailboxes (v.getInt "mail_id"))
  | "infomaniak_get_mailbox" => do
      let v ← validate MailboxIdSchema args
      .ok (c.getMailbox (v.getInt "mail_id") (v.getInt "mailbox_id"))
  | "infomaniak_create_mailbox" => do
      let v ← validate CreateMailboxSchema args
      .ok (c.createMailbox (v.getInt "mail_id")
        { mailbox_name := v.getStr "mailbox_name", password := v.getStr "password",
          max_size := v.getIntOpt "max_size" })
  | "infomaniak_update_mailbox" => do
      let v ← validate UpdateMailboxSchema args
      .ok (c.updateMailbox (v.getInt "mail_id") (v.getInt "mailbox_id")
        { password := v.getStrOpt "password", max_size := v.getIntOpt "max_size" })
  | "infomaniak_delete_mailbox" => do
      let v ← validate DeleteMailboxSchema args
      .ok (c.deleteMailbox (v.getInt "mail_id") (v.getInt "mailbox_id"))
  | "infomaniak_add_mailbox_alias" => do
      let v ← validate MailboxAliasSchema args
      .ok (c.addMailboxAlias (v.getInt "mail_id") (v.getInt "mailbox_id") (v.getStr "alias"))
  | "infomaniak_delete_mailbox_alias" => do
      let v ← validate MailboxAliasSchema args
      .ok (c.deleteMailboxAlias (v.getInt "mail_id") (v.getInt "mailbox_id") (v.getStr "alias"))
  | "infomaniak_list_web_hostings" => do
      let v ← validate AccountIdSchema args
      .ok (c.getWebHostings (v.getInt "account_id"))
  | "infomaniak_get_web_hosting" => do
      let v ← validate HostingIdSchema args
      .ok (c.getWebHosting (v.getInt "hosting_id"))
  | "infomaniak_list_sites" => do
      let v ← validate HostingIdSchema args
      .ok (c.getSites (v.getInt "hosting_id"))
  | "infomaniak_get_site" => do
      let v ← validate SiteIdSchema args
      .ok (c.getSite (v.getInt "hosting_id") (v.getInt "site_id"))
  | "infomaniak_create_site" => do
      let v ← validate CreateSiteSchema args
      .ok (c.createSite (v.getInt "hosting_id")
        { fqdn := v.getStr "fqdn", path := v.getStrOpt "path",
          php_version := v.getStrOpt "php_version" })
  | "infomaniak_update_site" => do
      let v ← validate UpdateSiteSchema args
      .ok (c.updateSite (v.getInt "hosting_id") (v.getInt "site_id")
        { path := v.getStrOpt "path", php_version := v.getStrOpt "php_version" })
  | "infomaniak_delete_site" => do
      let v ← validate DeleteSiteSchema args
      .ok (c.deleteSite (v.getInt "hosting_id") (v.getInt "site_id"))
  | "infomaniak_list_databases" => do
      let v ← validate HostingIdSchema args
      .ok (c.getDatabases (v.getInt "hosting_id"))
  | "infomaniak_get_database" => do
      let v ← validate DatabaseIdSchema args
      .ok (c.getDatabase (v.getInt "hosting_id") (v.getInt "database_id"))
  | "infomaniak_create_database" => do
      let v ← validate CreateDatabaseSchema args
      .ok (c.createDatabase (v.getInt "hosting_id")
        { name := v.getStr "name", charset := v.getStrOpt "charset" })
  | "infomaniak_delete_database" => do
      let v ← validate DeleteDatabaseSchema args
      .ok (c.deleteDatabase (v.getInt "hosting_id") (v.getInt "database_id"))
  | "infomaniak_list_kdrives" => do
      let v ← validate AccountIdSchema args
      .ok (c.getKDrives (v.getInt "account_id"))
  | "infomaniak_get_kdrive" => do
      let v ← validate DriveIdSchema args
      .ok (c.getKDrive (v.getInt "drive_id"))
  | "infomaniak_list_swiss_backups" => do
      let v ← validate AccountIdSchema args
      .ok (c.getSwissBackups (v.getInt "account_id"))
  | "infomaniak_get_swiss_backup" => do
      let v ← validate BackupIdSchema args
      .ok (c.getSwissBackup (v.getInt "backup_id"))
  | "infomaniak_list_swiss_backup_slots" => do
      let v ← validate BackupIdSchema args
      .ok (c.getSwissBackupSlots (v.getInt "backup_id"))
  | "infomaniak_list_vps" => .ok c.getVpsList
  | "infomaniak_get_vps" => do
      let v ← validate VpsIdSchema args
      .ok (c.getVps (v.getInt "vps_id"))
  | "infomaniak_reboot_vps" => do
      let v ← validate VpsIdSchema args
      .ok (c.rebootVps (v.getInt "vps_id"))
  | "infomaniak_shutdown_vps" => do
      let v ← validate VpsIdSchema args
      .ok (c.shutdownVps (v.getInt "vps_id"))
  | "infomaniak_boot_vps" => do
      let v ← validate VpsIdSchema args
      .ok (c.bootVps (v.getInt "vps_id"))
  | "infomaniak_list_dedicated_servers" => .ok c.getDedicatedServers
  | "infomaniak_get_dedicated_server" => do
      let v ← validate ServerIdSchema args
      .ok (c.getDedicatedServer (v.getInt "server_id"))
  | "infomaniak_reboot_dedicated_server" => do
      let v ← validate ServerIdSchema args
      .ok (c.rebootDedicatedServer (v.getInt "server_id"))
  | "infomaniak_list_certificates" => do
      let v ← validate AccountIdSchema args
      .ok (c.getCertificates (v.getInt "account_id"))
  | "infomaniak_get_certificate" => do
      let v ← validate CertificateIdSchema args
      .ok (c.getCertificate (v.getInt "certificate_id"))
  | "infomaniak_list_invoices" => do
      let v ← validate AccountIdSchema args
      .ok (c.getInvoices (v.getInt "account_id"))
  | "infomaniak_get_invoice" => do
      let v ← validate InvoiceIdSchema args
      .ok (c.getInvoice (v.getInt "account_id") (v.getInt "invoice_id"))
  | "infomaniak_api_call" => do
      let v ← validate ApiCallSchema args
      .ok (c.call (v.getStr "method") (v.getStr "endpoint")
        ((v.getObjOpt "body").map recordToJsObj)
        ((v.getObjOpt "query_params").map recordToQueryParams))
  | _ => .error ("Unknown tool: " ++ name)

/-- What the tool-call handler observably does for one request: either
issue exactly one network call (whose successful result is then serialised
back), or return an error-flagged text result without any network call. -/
inductive ToolOutcome where
  | network (call : FetchCall)
  | result (text : String) (isError : Bool)
deriving Repr

/-- The tool-call handler around the switch: a thrown message surfaces as
an `isError` content whose text is the message behind the `Error: ` prefix,
through the same channel as success results. -/
def handleToolCall (c : InfomaniakClient) (name : String) (args : Option Json) :
    ToolOutcome :=
  match dispatchCore c name args with
  | .ok fc => .network fc
  | .error m => .result ("Error: " ++ m) true

/-! ## The Streamable HTTP transport (session handlers)

The `activeSessions` registry is a JavaScript `Map` from session identifier
to transport handle, modelled as an association list with unique keys (a
`Map` can hold at most one entry per key).  The transport-handle type is a
parameter `τ`: the handlers only store, look up, close and remove handles.
The session identifier of a request is the `mcp-session-id` header value:
`none` models an absent header, and JavaScript truthiness makes an empty
header value behave exactly like an absent one.  `isInitializeRequest` is
an SDK library predicate on the request body and enters the model as a
boolean, as does `randomUUID` as the pre-generated fresh identifier. -/

/-- `Map.prototype.has`. -/
def containsKey {τ : Type} (m : List (String × τ)) (k : String) : Bool :=
  m.any (fun p => p.1 == k)

/-- `Map.prototype.get` (`none` for a missing key). -/
def getValue {τ : Type} (m : List (String × τ)) (k : String) : Option τ :=
  (m.find? (fun p => p.1 == k)).map (·.2)

/-- `Map.prototype.set`: replace in place or append a new entry. -/
def setKey {τ : Type} (m : List (String × τ)) (k : String) (v : τ) :
    List (String × τ) :=
  if containsKey m k then m.map (fun p => if p.1 == k then (k, v) else p)
  else m ++ [(k, v)]

/-- `Map.prototype.delete` restricted to the stored key (on unique keys,
removing every entry with the key equals removing the single entry). -/
def removeKey {τ : Type} (m : List (String × τ)) (k : String) :
    List (String × τ) :=
  m.filter (fun p => p.1 != k)

/-- JavaScript truthiness of an optional header value. -/
def headerTruthy : Option String → Bool
  | none => false
  | some s => s != ""

/-- The observable outcome of the `POST /mcp` handler before the request is
routed into the transport. -/
inductive PostMcpOutcome (τ : Type) where
  | reuse (transport : τ)
  | initialized (sessionId : String)
  | invalidRequest (status : Nat) (code : Int) (message : String)
deriving Repr

/-- The JSON-RPC rejection of the final `else` branch of `POST /mcp`. -/
def postMcpRejection {τ : Type} : PostMcpOutcome τ :=
  .invalidRequest 400 (-32600)
    "Invalid request: No session ID provided and not an initialization request"

/-- The `POST /mcp` handler of the Streamable HTTP transport: reuse a known
session, create a fresh one for an initialization request without session
identifier (registering it unless stateless), and otherwise reject with a
structured invalid-request error.  Returns the outcome together with the
registry after the request. -/
def handlePostMcp {τ : Type} (stateless : Bool) (registry : List (String × τ))
    (sessionId : Option String) (isInit : Bool) (newSessionId : String)
    (newTransport : τ) : PostMcpOutcome τ × List (String × τ) :=
  if headerTruthy sessionId then
    match getValue registry (sessionId.getD "") with
    | some t => (.reuse t, registry)
    | none => (postMcpRejection, registry)
  else if isInit then
    (.initialized newSessionId,
     if stateless then registry else setKey registry newSessionId newTransport)
  else (postMcpRejection, registry)

/-- The observable outcome of the `DELETE /mcp` handler: the response
status and message, the registry after the request, and the transports on
which `close()` was invoked. -/
structure DeleteMcpResult (τ : Type) where
  status : Nat
  message : String
  registry : List (String × τ)
  closed : List τ

/-- The `DELETE /mcp` session-termination handler: absent identifier is a
400 invalid request; a registered identifier closes its transport, removes
the entry and answers 200; an unknown identifier answers 404 without
touching the registry or any transport. -/
def handleDeleteMcp {τ : Type} (registry : List (String × τ))
    (sessionId : Option String) : DeleteMcpResult τ :=
  if headerTruthy sessionId then
    let sid := sessionId.getD ""
    match getValue registry sid with
    | some t => ⟨200, "Session terminated", removeKey registry sid, [t]⟩
    | none => ⟨404, "Session not found", registry, []⟩
  else ⟨400, "Invalid request: No session ID provided", registry, []⟩

/-! ## Auxiliary notions used by the theorems -/

/-- Decidable substring occurrence, used to state what a message does and
does not contain. -/
def substrOccurs (needle hay : String) : Bool :=
  hay.toList.tails.any (fun t => needle.toList.isPrefixOf t)

/-- The custom `required_error` a field rule declares, when it declares
one (it is the issue message zod reports when the field is absent). -/
def requiredMessage : ZodField → Option String
  | .number (some m) _ => some m
  | .string (some m) _ => some m
  | _ => none

/-- A concrete client (the token the unit tests use; default base URL). -/
def testClient : InfomaniakClient :=
  InfomaniakClient.mk' { token := "test-token-123" }

/-! ## Helper lemmas -/

/-- Every element of a joined list occurs verbatim inside the join. -/
theorem joinStr_decomp (sep : String) (l : List String) (x : String) (hx : x ∈ l) :
    ∃ pre post, joinStr sep l = pre ++ x ++ post := by
  induction l with
  | nil => cases hx
  | cons a t ih =>
    rcases List.mem_cons.mp hx with rfl | hmem
    · cases t with
      | nil => exact ⟨"", "", by simp [joinStr, String.append_empty, String.empty_append]⟩
      | cons b t2 =>
          exact ⟨"", sep ++ joinStr sep (b :: t2),
            by simp [joinStr, String.empty_append, String.append_assoc]⟩
    · obtain ⟨pre, post, hp⟩ := ih hmem
      cases t with
      | nil => cases hmem
      | cons b t2 =>
          refine ⟨a ++ sep ++ pre, post, ?_⟩
          show a ++ sep ++ joinStr sep (b :: t2) = a ++ sep ++ pre ++ x ++ post
          rw [hp]
          simp [String.append_assoc]

/-- The message of a failed `validate` is the formatted join of every
collected issue. -/
theorem validate_error_eq (shape : ZodObject) (data : Option Json) (m : String)
    (h : validate shape data = .error m) :
    m = "Validation error: " ++ joinStr ", " ((zodObjectIssues shape data).map formatIssue) := by
  unfold validate at h
  split at h
  · exact absurd h (by simp)
  · next heq =>
      rw [Except.error.injEq] at h
      exact h.symm

/-- When the issue list is nonempty, `validate` fails with the formatted
join of the issues. -/
theorem validate_error_of_ne (shape : ZodObject) (data : Option Json)
    (h : zodObjectIssues shape data ≠ []) :
    validate shape data =
      .error ("Validation error: " ++ joinStr ", " ((zodObjectIssues shape data).map formatIssue)) := by
  unfold validate
  split
  · next heq hnil => exact absurd hnil h
  · rfl

/-- Every collected issue appears, formatted, inside the thrown message. -/
theorem validate_error_contains (shape : ZodObject) (data : Option Json) (m : String)
    (h : validate shape data = .error m) (i : ZodIssue)
    (hi : i ∈ zodObjectIssues shape data) :
    ∃ pre post, m = pre ++ formatIssue i ++ post := by
  obtain ⟨pre, post, hjp⟩ :=
    joinStr_decomp ", " ((zodObjectIssues shape data).map formatIssue) (formatIssue i)
      (List.mem_map_of_mem formatIssue hi)
  refine ⟨"Validation error: " ++ pre, post, ?_⟩
  rw [validate_error_eq shape data m h, hjp]
  simp [String.append_assoc]

/-- A field rule with a declared `required_error` reports exactly that
message when the field value is `undefined`. -/
theorem requiredMessage_issues (fs : ZodField) (f msg : String)
    (hreq : requiredMessage fs = some msg) :
    fs.issues f none = [⟨[f], msg⟩] := by
  cases fs with
  | number re checks =>
      cases re with
      | none => exact absurd hreq (by simp [requiredMessage])
      | some r =>
          simp only [requiredMessage, Option.some.injEq] at hreq
          subst hreq
          rfl
  | string re checks =>
      cases re with
      | none => exact absurd hreq (by simp [requiredMessage])
      | some r =>
          simp only [requiredMessage, Option.some.injEq] at hreq
          subst hreq
          rfl
  | enum values => exact absurd hreq (by simp [requiredMessage])
  | record kind => exact absurd hreq (by simp [requiredMessage])
  | optional inner => exact absurd hreq (by simp [requiredMessage])

/-- The absence issue of a declared required field is among the collected
issues of the object parse. -/
theorem absent_required_mem (shape : ZodObject) (fields : List (String × Json))
    (f : String) (fs : ZodField) (msg : String)
    (hmem : (f, fs) ∈ shape) (hreq : requiredMessage fs = some msg)
    (habs : jsLookup fields f = none) :
    (⟨[f], msg⟩ : ZodIssue) ∈ zodObjectIssues shape (some (Json.obj fields)) := by
  show (⟨[f], msg⟩ : ZodIssue) ∈
    (shape.map fun p => p.2.issues p.1 (jsLookup fields p.1)).flatten
  rw [List.mem_flatten]
  refine ⟨fs.issues f (jsLookup fields f), ?_, ?_⟩
  · exact List.mem_map_of_mem (fun p => p.2.issues p.1 (jsLookup fields p.1)) hmem
  · rw [habs, requiredMessage_issues fs f msg hreq]
    exact List.mem_singleton.mpr rfl

/-! ## Claim theorems -/

/-- C1 (corrected), counterexample: a single `validate` call on
`DeleteDnsRecordSchema` with an empty argument bag reports the violations
of BOTH invalid fields (`domain` and `record_id`) in one aggregated
message, refuting the claim that only the first constraint violation of
the first invalid field is reported. -/
theorem imcp_C1_counterexample :
    validate DeleteDnsRecordSchema (some (Json.obj [])) =
      Except.error "Validation error: domain: Required, record_id: record_id is required" ∧
    substrOccurs "domain: Required"
      "Validation error: domain: Required, record_id: record_id is required" = true ∧
    substrOccurs "record_id: record_id is required"
      "Validation error: domain: Required, record_id: record_id is required" = true :=
  ⟨rfl, rfl, rfl⟩

/-- C1 (amended): the `validate` helper aggregates: whenever validation
fails, the thrown message contains the formatted report of EVERY collected
constraint violation, across all invalid fields, joined in the fixed
field-declaration order of the operation schema — not only the first. -/
theorem imcp_C1_aggregates (shape : ZodObject) (data : Option Json) (m : String)
    (h : validate shape data = Except.error m) :
    ∀ i ∈ zodObjectIssues shape data, ∃ pre post, m = pre ++ formatIssue i ++ post :=
  fun i hi => validate_error_contains shape data m h i hi

/-- Witness for `imcp_C1_aggregates` at a concrete multi-failure input. -/
theorem imcp_C1_aggregates_witness :
    ∃ pre post,
      "Validation error: domain: Required, record_id: record_id is required" =
        pre ++ formatIssue ⟨["record_id"], "record_id is required"⟩ ++ post :=
  imcp_C1_aggregates DeleteDnsRecordSchema (some (Json.obj [])) _ rfl
    ⟨["record_id"], "record_id is required"⟩ (by decide)

/-- C3 (corrected), counterexample: `infomaniak_create_dns_record` has the
required field `domain`, yet a bag lacking `domain` produces the message
`Validation error: domain: Required`, which does not contain
`domain is required` — the claimed `<field> is required` text only appears
for fields declaring a custom `required_error`. -/
theorem imcp_C3_counterexample :
    validate CreateDnsRecordSchema (some (Json.obj [("source", Json.str "www"),
        ("type", Json.str "A"), ("target", Json.str "1.2.3.4")])) =
      Except.error "Validation error: domain: Required" ∧
    substrOccurs "domain is required" "Validation error: domain: Required" = false :=
  ⟨rfl, rfl⟩

/-- C3 (amended): for every operation schema and every required field
declared with a custom `required_error` message (these are the fields whose
message reads `<field> is required`), a bag lacking that field makes
`validate` fail, and the failure text contains the field-path-qualified
message `<field>: <required_error>`. -/
theorem imcp_C3_required_reported (shape : ZodObject) (fields : List (String × Json))
    (f : String) (fs : ZodField) (msg : String)
    (hmem : (f, fs) ∈ shape) (hreq : requiredMessage fs = some msg)
    (habs : jsLookup fields f = none) :
    ∃ m pre post, validate shape (some (Json.obj fields)) = Except.error m ∧
      m = pre ++ (f ++ ": " ++ msg) ++ post := by
  have hmemi := absent_required_mem shape fields f fs msg hmem hreq habs
  have hne : zodObjectIssues shape (some (Json.obj fields)) ≠ [] := by
    intro hnil
    rw [hnil] at hmemi
    cases hmemi
  have herr := validate_error_of_ne shape (some (Json.obj fields)) hne
  obtain ⟨pre, post, hdec⟩ :=
    validate_error_contains shape (some (Json.obj fields)) _ herr ⟨[f], msg⟩ hmemi
  exact ⟨_, pre, post, herr, hdec⟩

/-- Witness for `imcp_C3_required_reported`: `account_id` absent from the
bag of `infomaniak_get_account`. -/
theorem imcp_C3_required_reported_witness :
    ∃ m pre post, validate AccountIdSchema (some (Json.obj [])) = Except.error m ∧
      m = pre ++ ("account_id" ++ ": " ++ "account_id is required") ++ post :=
  imcp_C3_required_reported AccountIdSchema [] "account_id"
    (.number (some "account_id is required") [.gt 0 (some "account_id must be positive")])
    "account_id is required" (List.mem_singleton.mpr rfl) rfl rfl

/-- C8 (confirmed): the bounded integer fields of
`infomaniak_create_dns_record` accept values exactly at their bounds
(`ttl` in `[60, 86400]`, `priority` in `[0, 65535]`), returning them
unmodified (no clamping), and reject values one unit outside either bound
with a validation failure. -/
theorem imcp_C8_bounds :
    validate CreateDnsRecordSchema (some (Json.obj [("domain", Json.str "example.com"),
        ("source", Json.str "@"), ("type", Json.str "A"), ("target", Json.str "1.2.3.4"),
        ("ttl", Json.num 60)])) =
      Except.ok (Json.obj [("domain", Json.str "example.com"), ("source", Json.str "@"),
        ("type", Json.str "A"), ("target", Json.str "1.2.3.4"), ("ttl", Json.num 60)]) ∧
    validate CreateDnsRecordSchema (some (Json.obj [("domain", Json.str "example.com"),
        ("source", Json.str "@"), ("type", Json.str "A"), ("target", Json.str "1.2.3.4"),
        ("ttl", Json.num 86400)])) =
      Except.ok (Json.obj [("domain", Json.str "example.com"), ("source", Json.str "@"),
        ("type", Json.str "A"), ("target", Json.str "1.2.3.4"), ("ttl", Json.num 86400)]) ∧
    validate CreateDnsRecordSchema (some (Json.obj [("domain", Json.str "example.com"),
        ("source", Json.str "@"), ("type", Json.str "A"), ("target", Json.str "1.2.3.4"),
        ("ttl", Json.num 59)])) =
      Except.error "Validation error: ttl: Number must be greater than or equal to 60" ∧
    validate CreateDnsRecordSchema (some (Json.obj [("domain", Json.str "example.com"),
        ("source", Json.str "@"), ("type", Json.str "A"), ("target", Json.str "1.2.3.4"),
        ("ttl", Json.num 86401)])) =
      Except.error "Validation error: ttl: Number must be less than or equal to 86400" ∧
    validate CreateDnsRecordSchema (some (Json.obj [("domain", Json.str "example.com"),
        ("source", Json.str "@"), ("type", Json.str "MX"), ("target", Json.str "mail.example.com"),
        ("priority", Json.num 0)])) =
      Except.ok (Json.obj [("domain", Json.str "example.com"), ("source", Json.str "@"),
        ("type", Json.str "MX"), ("target", Json.str "mail.example.com"),
        ("priority", Json.num 0)]) ∧
    validate CreateDnsRecordSchema (some (Json.obj [("domain", Json.str "example.com"),
        ("source", Json.str "@"), ("type", Json.str "MX"), ("target", Json.str "mail.example.com"),
        ("priority", Json.num 65535)])) =
      Except.ok (Json.obj [("domain", Json.str "example.com"), ("source", Json.str "@"),
        ("type", Json.str "MX"), ("target", Json.str "mail.example.com"),
        ("priority", Json.num 65535)]) ∧
    validate CreateDnsRecordSchema (some (Json.obj [("domain", Json.str "example.com"),
        ("source", Json.str "@"), ("type", Json.str "MX"), ("target", Json.str "mail.example.com"),
        ("priority", Json.num (-1))])) =
      Except.error "Validation error: priority: Number must be greater than or equal to 0" ∧
    validate CreateDnsRecordSchema (some (Json.obj [("domain", Json.str "example.com"),
        ("source", Json.str "@"), ("type", Json.str "MX"), ("target", Json.str "mail.example.com"),
        ("priority", Json.num 65536)])) =
      Except.error "Validation error: priority: Number must be less than or equal to 65535" :=
  ⟨rfl, rfl, rfl, rfl, rfl, rfl, rfl, rfl⟩

/-- A body with a nested `error.description` string makes the extracted
message that description. -/
theorem extract_desc_eq (bodyText : String) (j e : Json) (d : String)
    (h1 : j.getProp "error" = some e) (h2 : e.getProp "description" = some (Json.str d))
    (h3 : d ≠ "") : extractErrorMessage bodyText (some j) = d := by
  cases j with
  | obj fields =>
      have hdesc : errorDescription (Json.obj fields) = some (Json.str d) := by
        unfold errorDescription
        rw [h1]
        cases e with
        | null => exact absurd h2 (by simp [Json.getProp])
        | bool b => exact h2
        | num n => exact h2
        | str s => exact h2
        | arr elems => exact h2
        | obj fs => exact h2
      have htr : (Json.str d).truthy = true := by
        simp [Json.truthy]
        exact h3
      simp [extractErrorMessage, hdesc, htr, jsDisplay]
  | null => exact absurd h1 (by simp [Json.getProp])
  | bool b => exact absurd h1 (by simp [Json.getProp])
  | num n => exact absurd h1 (by simp [Json.getProp])
  | str s => exact absurd h1 (by simp [Json.getProp])
  | arr elems => exact absurd h1 (by simp [Json.getProp])

/-- C2 (confirmed): every non-2xx response makes `request` throw exactly
`Infomaniak API Error (<status>): <description>`, where the description is
the nested `error.description` of a JSON body carrying one, and the raw
body text when JSON parsing fails; in particular status 400 with body
containing `error.description = "bad thing"` throws exactly
`Infomaniak API Error (400): bad thing`. -/
theorem imcp_C2_error_message (status : Nat) (h : ¬(200 ≤ status ∧ status < 300)) :
    (∀ (bodyText : String) (j e : Json) (d : String),
        j.getProp "error" = some e → e.getProp "description" = some (Json.str d) →
        d ≠ "" →
        requestOutcome status bodyText (some j) =
          .apiError ("Infomaniak API Error (" ++ toString status ++ "): " ++ d)) ∧
    (∀ bodyText : String,
        requestOutcome status bodyText none =
          .apiError ("Infomaniak API Error (" ++ toString status ++ "): " ++ bodyText)) ∧
    requestOutcome 400 "\x7b\"error\":\x7b\"description\":\"bad thing\"\x7d\x7d"
        (some (Json.obj [("error", Json.obj [("description", Json.str "bad thing")])])) =
      RequestOutcome.apiError "Infomaniak API Error (400): bad thing" := by
  have hb : (decide (200 ≤ status) && decide (status < 300)) = false := by
    by_contra hb
    rw [Bool.not_eq_false, Bool.and_eq_true, decide_eq_true_eq, decide_eq_true_eq] at hb
    exact h hb
  refine ⟨?_, ?_, rfl⟩
  · intro bodyText j e d h1 h2 h3
    simp [requestOutcome, hb, apiErrorMessage, extract_desc_eq bodyText j e d h1 h2 h3]
  · intro bodyText
    simp [requestOutcome, hb, apiErrorMessage, extractErrorMessage]

/-- Witness for `imcp_C2_error_message` at status 401 with an unparsable
body, matching the unit test for a raw-text error body. -/
theorem imcp_C2_error_message_witness :
    requestOutcome 401 "Unauthorized" none =
      RequestOutcome.apiError ("Infomaniak API Error (" ++ toString 401 ++ "): " ++
        "Unauthorized") :=
  (imcp_C2_error_message 401 (by decide)).2.1 "Unauthorized"

/-- C10 (confirmed): `request` attaches a serialised body only for methods
`POST`, `PUT` and `PATCH`; for `GET` and `DELETE` (also through the generic
passthrough `call`) no body is attached even when a body argument is
supplied. -/
theorem imcp_C10_body_only_for_write :
    (∀ (c : InfomaniakClient) (path : String) (body : Option JsObj)
       (qp : Option QueryParams) (method : String),
       method = "GET" ∨ method = "DELETE" →
       (c.request method path body qp).body = none) ∧
    (∀ (c : InfomaniakClient) (method path : String) (body : Option JsObj)
       (qp : Option QueryParams) (s : String),
       (c.request method path body qp).body = some s →
       method = "POST" ∨ method = "PUT" ∨ method = "PATCH") ∧
    (∀ (c : InfomaniakClient) (endpoint : String) (body : Option JsObj)
       (qp : Option QueryParams),
       (c.call "GET" endpoint body qp).body = none ∧
       (c.call "DELETE" endpoint body qp).body = none) := by
  refine ⟨?_, ?_, ?_⟩
  · rintro c path body qp method (rfl | rfl) <;> cases body <;> rfl
  · intro c method path body qp s hbody
    cases body with
    | none => exact absurd hbody (by simp [InfomaniakClient.request])
    | some b =>
        simp only [InfomaniakClient.request] at hbody
        split at hbody
        · next hcond =>
            rcases Bool.or_eq_true_iff.mp hcond with h12 | h3
            · rcases Bool.or_eq_true_iff.mp h12 with h1 | h2
              · exact Or.inl (eq_of_beq h1)
              · exact Or.inr (Or.inl (eq_of_beq h2))
            · exact Or.inr (Or.inr (eq_of_beq h3))
        · exact absurd hbody (by simp)
  · intro c endpoint body qp
    constructor <;> cases body <;> rfl

/-- Witness for `imcp_C10_body_only_for_write`: a `GET` with a supplied
non-empty body carries none. -/
theorem imcp_C10_body_only_for_write_witness :
    (InfomaniakClient.request testClient "GET" "/1/ping"
        (some [("a", some (Json.num 1))]) none).body = none :=
  imcp_C10_body_only_for_write.1 testClient "/1/ping"
    (some [("a", some (Json.num 1))]) none "GET" (Or.inl rfl)

/-- C4 (confirmed): dispatching `infomaniak_create_dns_record` on
`domain example.com, source www, type A, target 1.2.3.4` (no ttl, no
priority) produces exactly one network call: a `POST` to
`/1/domain/example.com/dns/record` whose serialised JSON body holds exactly
the keys `source`, `type`, `target` with those values — the absent optional
fields are omitted, not defaulted. -/
theorem imcp_C4_create_dns_roundtrip (c : InfomaniakClient) :
    handleToolCall c "infomaniak_create_dns_record"
        (some (Json.obj [("domain", Json.str "example.com"), ("source", Json.str "www"),
          ("type", Json.str "A"), ("target", Json.str "1.2.3.4")])) =
      ToolOutcome.network
        { url := c.baseUrl ++ "/1/domain/example.com/dns/record",
          method := "POST",
          headers := requestHeaders c,
          body := some "\x7b\"source\":\"www\",\"type\":\"A\",\"target\":\"1.2.3.4\"\x7d" } :=
  rfl

/-- A key outside the registry has no stored value. -/
theorem getValue_eq_none_of_not_contains {τ : Type} (m : List (String × τ)) (k : String)
    (h : containsKey m k = false) : getValue m k = none := by
  have hfind : m.find? (fun p => p.1 == k) = none := by
    rw [List.find?_eq_none]
    intro x hx hbeq
    have hany : m.any (fun p => p.1 == k) = true := List.any_eq_true.mpr ⟨x, hx, hbeq⟩
    rw [containsKey] at h
    rw [h] at hany
    cases hany
  rw [getValue, hfind]
  rfl

set_option maxHeartbeats 4000000 in
/-- C6 (confirmed): an operation name with no entry in the dispatch switch
produces an error-flagged result whose text contains `Unknown tool: ` and
the requested name, through the uniform result channel (`.result`, not
`.network`): no network call is issued and no exception escapes the
handler. -/
theorem imcp_C6_unknown_tool (c : InfomaniakClient) (name : String) (args : Option Json)
    (h : name ∉ knownToolNames) :
    handleToolCall c name args =
      ToolOutcome.result ("Error: " ++ ("Unknown tool: " ++ name)) true := by
  have hd : dispatchCore c name args = Except.error ("Unknown tool: " ++ name) := by
    unfold dispatchCore
    split
    all_goals first
      | rfl
      | exact absurd (by decide) h
  rw [handleToolCall, hd]

/-- Witness for `imcp_C6_unknown_tool` at a concrete unknown name. -/
theorem imcp_C6_unknown_tool_witness :
    handleToolCall testClient "infomaniak_not_a_tool" none =
      ToolOutcome.result ("Error: " ++ ("Unknown tool: " ++ "infomaniak_not_a_tool")) true :=
  imcp_C6_unknown_tool testClient "infomaniak_not_a_tool" none (by decide)

/-- C9 (corrected), counterexample: a failing validation makes the handler
return `Error: <validation message>` — the caller-visible text carries the
added `Error: ` prefix and therefore differs from the unmodified
`ValidationFailure` message the claim demands. -/
theorem imcp_C9_counterexample :
    handleToolCall testClient "infomaniak_get_account" (some (Json.obj [])) =
      ToolOutcome.result "Error: Validation error: account_id: account_id is required" true ∧
    validate AccountIdSchema (some (Json.obj [])) =
      Except.error "Validation error: account_id: account_id is required" ∧
    "Error: Validation error: account_id: account_id is required" ≠
      "Validation error: account_id: account_id is required" :=
  ⟨rfl, rfl, by decide⟩

/-- C9 (amended): for every operation and argument bag failing validation,
the handler returns an error-flagged result whose text is exactly
`Error: ` followed by the validation failure message, otherwise unmodified
(shown generically for every thrown dispatch message, and specifically for
the validation failures of `infomaniak_create_dns_record`). -/
theorem imcp_C9_error_envelope (c : InfomaniakClient) :
    (∀ (name : String) (args : Option Json) (m : String),
        dispatchCore c name args = Except.error m →
        handleToolCall c name args = ToolOutcome.result ("Error: " ++ m) true) ∧
    (∀ (args : Option Json) (m : String),
        validate CreateDnsRecordSchema args = Except.error m →
        handleToolCall c "infomaniak_create_dns_record" args =
          ToolOutcome.result ("Error: " ++ m) true) := by
  constructor
  · intro name args m h
    rw [handleToolCall, h]
  · intro args m h
    have hd : dispatchCore c "infomaniak_create_dns_record" args = Except.error m := by
      show (validate CreateDnsRecordSchema args >>= fun v =>
        Except.ok (c.createDnsRecord (v.getStr "domain")
          { source := v.getStr "source", type := v.getStr "type",
            target := v.getStr "target", ttl := v.getIntOpt "ttl",
            priority := v.getIntOpt "priority" })) = Except.error m
      rw [h]
      rfl
    rw [handleToolCall, hd]

/-- Witness for `imcp_C9_error_envelope` on the empty bag. -/
theorem imcp_C9_error_envelope_witness :
    handleToolCall testClient "infomaniak_create_dns_record" (some (Json.obj [])) =
      ToolOutcome.result ("Error: " ++
        ("Validation error: domain: Required, source: source is required, " ++
         "type: Required, target: target is required")) true :=
  (imcp_C9_error_envelope testClient).2 (some (Json.obj []))
    ("Validation error: domain: Required, source: source is required, " ++
     "type: Required, target: target is required") rfl

/-- C5 (confirmed): a `POST /mcp` carrying a session identifier not present
in the registry, or carrying no identifier while not being an
initialization request, is rejected with the structured invalid-request
error (HTTP 400, JSON-RPC code -32600) and the registry is returned
unchanged: no session is created. -/
theorem imcp_C5_invalid_post (τ : Type) (stateless : Bool)
    (registry : List (String × τ)) (isInit : Bool) (newId : String) (newT : τ) :
    (∀ s : String, s ≠ "" → containsKey registry s = false →
        handlePostMcp stateless registry (some s) isInit newId newT =
          (postMcpRejection, registry)) ∧
    handlePostMcp stateless registry none false newId newT =
      (postMcpRejection, registry) := by
  constructor
  · intro s hs hc
    have hval := getValue_eq_none_of_not_contains registry s hc
    have ht : headerTruthy (some s) = true := by
      simpa [headerTruthy, bne_iff_ne] using hs
    simp [handlePostMcp, ht, hval]
  · rfl

/-- Witness for `imcp_C5_invalid_post`: an unknown identifier against a
one-session registry, and a session-less non-initialization request. -/
theorem imcp_C5_invalid_post_witness :
    handlePostMcp false [("session-a", (1 : Nat))] (some "session-b") true "fresh" 2 =
      (postMcpRejection, [("session-a", (1 : Nat))]) ∧
    handlePostMcp false [("session-a", (1 : Nat))] none false "fresh" 2 =
      (postMcpRejection, [("session-a", (1 : Nat))]) :=
  ⟨(imcp_C5_invalid_post Nat false [("session-a", 1)] true "fresh" 2).1 "session-b"
      (by decide) (by decide),
   (imcp_C5_invalid_post Nat false [("session-a", 1)] false "fresh" 2).2⟩

/-- C7 (confirmed): a `DELETE /mcp` termination request for an identifier
absent from the registry answers 404 `Session not found` and leaves the
registry exactly as it was (no transport closed, no abort); for a
registered identifier it closes exactly that transport, removes exactly
that entry, and keeps every other stored session. -/
theorem imcp_C7_terminate (τ : Type) (registry : List (String × τ)) (s : String)
    (hs : s ≠ "") :
    (containsKey registry s = false →
        handleDeleteMcp registry (some s) = ⟨404, "Session not found", registry, []⟩) ∧
    (∀ t, getValue registry s = some t →
        handleDeleteMcp registry (some s) =
          ⟨200, "Session terminated", removeKey registry s, [t]⟩ ∧
        containsKey (removeKey registry s) s = false ∧
        (∀ p ∈ registry, p.1 ≠ s → p ∈ removeKey registry s)) := by
  have ht : headerTruthy (some s) = true := by
    simpa [headerTruthy, bne_iff_ne] using hs
  constructor
  · intro hc
    have hval := getValue_eq_none_of_not_contains registry s hc
    simp [handleDeleteMcp, ht, hval]
  · intro t hval
    refine ⟨by simp [handleDeleteMcp, ht, hval], ?_, ?_⟩
    · rw [Bool.eq_false_iff]
      intro hany
      obtain ⟨x, hx, hbeq⟩ := List.any_eq_true.mp hany
      rw [removeKey, List.mem_filter] at hx
      rw [bne_iff_ne] at hx
      exact hx.2 (eq_of_beq hbeq)
    · intro p hp hne
      rw [removeKey, List.mem_filter]
      exact ⟨hp, by simpa [bne_iff_ne] using hne⟩

/-- Witness for `imcp_C7_terminate`: both branches against a one-session
registry. -/
theorem imcp_C7_terminate_witness :
    handleDeleteMcp [("session-a", (1 : Nat))] (some "session-b") =
      ⟨404, "Session not found", [("session-a", (1 : Nat))], []⟩ ∧
    handleDeleteMcp [("session-a", (1 : Nat))] (some "session-a") =
      ⟨200, "Session terminated", [], [1]⟩ :=
  ⟨(imcp_C7_terminate Nat [("session-a", 1)] "session-b" (by decide)).1 (by decide),
   ((imcp_C7_terminate Nat [("session-a", 1)] "session-a" (by decide)).2 1 rfl).1⟩

end Imcp
